import Mathlib

/-!
Verification of the LinkedIn jobs scraper script (linkedin_jobs_scraper.py)
against its natural-language specification.

The script is thin glue around an external browser-automation engine: it
builds a search URL by naive space substitution, delegates one crawl per
operation, parses the extracted content as JSON, and prints records to the
console.  The embedding below models:

  * the URL construction (lines 113-115) as pure string functions;
  * the outcome of a delegated crawl as an explicit `CrawlOutcome` value
    (the call either returns an object carrying an optional
    `extracted_content` string, or raises with a message);
  * the Python standard-library decoder `json.loads` as an explicit
    function parameter `loads : String → Except DecodeErr Py` (it is not
    code of this repository; on a `str` argument it can only fail with
    `json.JSONDecodeError`, which `DecodeErr` models);
  * console/engine effects as an explicit trace of `Event`s, so that
    sequencing claims about `main` are statements about the trace.

Python exceptions escaping a function are modelled by an `Option PyErr`
component in the function's result; a function whose embedding is total
with no such component (e.g. `scrape_linkedin_jobs`) cannot propagate an
exception, mirroring its top-level `except Exception` handler.
-/

/-- Embeds `s.replace(' ', '%20')` (lines 113-114) at the character-list
level: Python `str.replace` with the single-character pattern `' '`
substitutes every occurrence of the space character, leaving all other
characters unchanged. -/
def replaceSpaceChars : List Char → List Char
  | [] => []
  | c :: cs => (if c = ' ' then ['%', '2', '0'] else [c]) ++ replaceSpaceChars cs

/-- String-level wrapper for `replaceSpaceChars`. -/
def encodeSpaces (s : String) : String :=
  (replaceSpaceChars s.data).asString

/-- Embeds the URL construction of lines 113-115: both inputs have their
spaces replaced by `%20` and are interpolated into the fixed template. -/
def searchUrl (search_query location : String) : String :=
  "https://www.linkedin.com/jobs/search?keywords=" ++ encodeSpaces search_query ++
    "&location=" ++ encodeSpaces location ++
    "&trk=public_jobs_jobs-search-bar_search-submit&position=1&pageNum=0"

theorem data_append_eq (s t : String) : (s ++ t).data = s.data ++ t.data := by
  cases s
  cases t
  rfl

theorem encodeSpaces_data (s : String) :
    (encodeSpaces s).data = replaceSpaceChars s.data := rfl

theorem count_space_replaceSpaceChars (xs : List Char) :
    (replaceSpaceChars xs).count ' ' = 0 := by
  induction xs with
  | nil => rfl
  | cons a as ih =>
    by_cases ha : a = ' '
    · subst ha
      simp [replaceSpaceChars, List.count_append, ih]
    · simp [replaceSpaceChars, ha, List.count_append, ih, List.count_cons, Ne.symm ha]

theorem length_replaceSpaceChars (xs : List Char) :
    (replaceSpaceChars xs).length = xs.length + 2 * xs.count ' ' := by
  induction xs with
  | nil => rfl
  | cons a as ih =>
    by_cases ha : a = ' '
    · subst ha
      simp [replaceSpaceChars, List.count_cons, ih]
      omega
    · simp [replaceSpaceChars, ha, List.count_cons, ih, Ne.symm ha]
      omega

theorem count_replaceSpaceChars (xs : List Char) (c : Char)
    (h1 : c ≠ ' ') (h2 : c ≠ '%') (h3 : c ≠ '2') (h4 : c ≠ '0') :
    (replaceSpaceChars xs).count c = xs.count c := by
  induction xs with
  | nil => rfl
  | cons a as ih =>
    by_cases ha : a = ' '
    · subst ha
      simp [replaceSpaceChars, List.count_append, List.count_cons, ih, h1, h2, h3, h4]
    · simp [replaceSpaceChars, ha, List.count_append, List.count_cons, ih]

/-- The URL as a concatenation of its three template segments and the two
encoded inputs. -/
theorem searchUrl_data (q l : String) :
    (searchUrl q l).data =
      ("https://www.linkedin.com/jobs/search?keywords=").data ++
        ((encodeSpaces q).data ++ (("&location=").data ++ ((encodeSpaces l).data ++
          ("&trk=public_jobs_jobs-search-bar_search-submit&position=1&pageNum=0").data))) := by
  simp only [searchUrl, data_append_eq, List.append_assoc]

set_option maxHeartbeats 2000000 in
theorem searchUrl_template_counts :
    ("https://www.linkedin.com/jobs/search?keywords=" : String).data.count ' ' = 0 ∧
    ("&location=" : String).data.count ' ' = 0 ∧
    ("&trk=public_jobs_jobs-search-bar_search-submit&position=1&pageNum=0" :
      String).data.count ' ' = 0 := by
  refine ⟨by decide, by decide, by decide⟩

set_option maxHeartbeats 2000000 in
theorem searchUrl_keywords_split :
    ("https://www.linkedin.com/jobs/search?keywords=" : String).data =
      ("https://www.linkedin.com/jobs/search?" : String).data ++
        ("keywords=" : String).data := by decide

set_option maxHeartbeats 2000000 in
theorem encodeSpaces_python_developer :
    (encodeSpaces "python developer").data = ("python%20developer" : String).data ∧
    (encodeSpaces "United States").data = ("United%20States" : String).data := by
  refine ⟨by decide, by decide⟩

/-- C1: for every query and location containing a space, the constructed
URL contains no residual space character (each space was percent-encoded,
tripling into `%20` as the length equation records), and it contains the
`keywords` and `location` query parameters carrying the encoded inputs;
in particular, for query "python developer" and location "United States"
the URL contains the substring
`keywords=python%20developer&location=United%20States`. -/
theorem searchUrl_percent_encodes_spaces (q l : String)
    (hq : ' ' ∈ q.data) (hl : ' ' ∈ l.data) :
    (searchUrl q l).data.count ' ' = 0 ∧
    (encodeSpaces q).data.length = q.data.length + 2 * q.data.count ' ' ∧
    (∃ p t, (searchUrl q l).data =
      p ++ ("keywords=" ++ encodeSpaces q ++ "&location=" ++ encodeSpaces l).data ++ t) ∧
    (∃ p t, (searchUrl "python developer" "United States").data =
      p ++ ("keywords=python%20developer&location=United%20States").data ++ t) := by
  obtain ⟨ht1, ht2, ht3⟩ := searchUrl_template_counts
  refine ⟨?_, ?_, ?_, ?_⟩
  · rw [searchUrl_data]
    simp only [List.count_append, encodeSpaces_data, count_space_replaceSpaceChars,
      ht1, ht2, ht3]
  · simpa [encodeSpaces_data] using length_replaceSpaceChars q.data
  · refine ⟨("https://www.linkedin.com/jobs/search?").data,
      ("&trk=public_jobs_jobs-search-bar_search-submit&position=1&pageNum=0").data, ?_⟩
    rw [searchUrl_data, searchUrl_keywords_split]
    simp [data_append_eq, List.append_assoc]
  · refine ⟨("https://www.linkedin.com/jobs/search?").data,
      ("&trk=public_jobs_jobs-search-bar_search-submit&position=1&pageNum=0").data, ?_⟩
    rw [searchUrl_data, searchUrl_keywords_split,
      encodeSpaces_python_developer.1, encodeSpaces_python_developer.2]
    have hmid : ("keywords=" : String).data ++
        (("python%20developer" : String).data ++ (("&location=" : String).data ++
          ("United%20States" : String).data)) =
        ("keywords=python%20developer&location=United%20States" : String).data := by
      decide
    rw [← hmid]
    simp [List.append_assoc]

/-- Witness for `searchUrl_percent_encodes_spaces` at the hard-coded query
and location of `main`. -/
theorem searchUrl_percent_encodes_spaces_witness :
    ' ' ∈ ("python developer" : String).data ∧
    ' ' ∈ ("United States" : String).data ∧
    ((searchUrl "python developer" "United States").data.count ' ' = 0 ∧
      (encodeSpaces "python developer").data.length =
        ("python developer" : String).data.length +
          2 * ("python developer" : String).data.count ' ' ∧
      (∃ p t, (searchUrl "python developer" "United States").data =
        p ++ ("keywords=" ++ encodeSpaces "python developer" ++ "&location=" ++
          encodeSpaces "United States").data ++ t) ∧
      (∃ p t, (searchUrl "python developer" "United States").data =
        p ++ ("keywords=python%20developer&location=United%20States").data ++ t)) :=
  ⟨by decide, by decide,
    searchUrl_percent_encodes_spaces "python developer" "United States"
      (by decide) (by decide)⟩

/-- C10: the substitution touches only spaces.  Every URL-reserved
character among `&`, `=`, `?`, `#` occurring in the query or location
appears verbatim (its occurrence count is preserved by the encoding, and
the count in the full URL is the template's count plus the inputs'
counts), while no space survives the encoding. -/
theorem searchUrl_preserves_reserved_chars (q l : String) (c : Char)
    (hc : c ∈ (['&', '=', '?', '#'] : List Char)) :
    (encodeSpaces q).data.count c = q.data.count c ∧
    (searchUrl q l).data.count c =
      (searchUrl "" "").data.count c + q.data.count c + l.data.count c ∧
    (encodeSpaces q).data.count ' ' = 0 := by
  have hne : c ≠ ' ' ∧ c ≠ '%' ∧ c ≠ '2' ∧ c ≠ '0' := by
    simp only [List.mem_cons, List.not_mem_nil, or_false] at hc
    rcases hc with h | h | h | h <;> subst h <;>
      exact ⟨by decide, by decide, by decide, by decide⟩
  obtain ⟨h1, h2, h3, h4⟩ := hne
  refine ⟨?_, ?_, ?_⟩
  · simpa [encodeSpaces_data] using count_replaceSpaceChars q.data c h1 h2 h3 h4
  · rw [searchUrl_data, searchUrl_data]
    simp only [List.count_append, encodeSpaces_data,
      count_replaceSpaceChars _ c h1 h2 h3 h4]
    have hemp : ("" : String).data = [] := rfl
    simp only [hemp, replaceSpaceChars, List.count_nil]
    omega
  · simpa [encodeSpaces_data] using count_space_replaceSpaceChars q.data

/-- Witness for `searchUrl_preserves_reserved_chars`: the ampersand in a
query string survives the encoding unescaped. -/
theorem searchUrl_preserves_reserved_chars_witness :
    '&' ∈ (['&', '=', '?', '#'] : List Char) ∧
    ((encodeSpaces "C& more").data.count '&' = ("C& more" : String).data.count '&' ∧
      (searchUrl "C& more" "US").data.count '&' =
        (searchUrl "" "").data.count '&' + ("C& more" : String).data.count '&' +
          ("US" : String).data.count '&' ∧
      (encodeSpaces "C& more").data.count ' ' = 0) :=
  ⟨by decide, searchUrl_preserves_reserved_chars "C& more" "US" '&' (by decide)⟩

/-- The browser launch options of lines 14-25.  The profile path of line 10
joins the operator home directory with `.crawl4ai/linkedin_profile`; the
home prefix is environment-dependent and irrelevant to every claim, so the
modelled path keeps only the fixed components. -/
structure BrowserConfig where
  headless : Bool
  verbose : Bool
  viewport_width : Nat
  viewport_height : Nat
  headers : List (String × String)
  user_data_dir : String
  use_persistent_context : Bool
deriving DecidableEq

/-- The module-level `browser_config` of lines 14-25, constructed once
when the module loads. -/
def browser_config : BrowserConfig :=
  BrowserConfig.mk false true 1920 1080
    [("User-Agent", "Mozilla/5.0 (Windows NT 10.0; Win64; x64) AppleWebKit/537.36 (KHTML, like Gecko) Chrome/120.0.0.0 Safari/537.36"),
     ("Accept-Language", "en-US,en;q=0.9")]
    ".crawl4ai/linkedin_profile" true

/-- A Python value as producible by `json.loads` (the JSON data types:
null, booleans, numbers restricted to the integers relevant here, strings,
arrays, objects). -/
inductive Py where
  | pNone
  | pBool (b : Bool)
  | pInt (n : Int)
  | pStr (s : String)
  | pList (xs : List Py)
  | pDict (kvs : List (String × Py))

/-- A `json.JSONDecodeError` as raised by `json.loads` on a `str` input. -/
structure DecodeErr where
  msg : String

/-- A Python exception escaping `main` (the handlers inside the two
scraper functions never let one escape). -/
inductive PyErr where
  | keyError (key : String)
  | typeError (msg : String)
deriving DecidableEq

/-- One observable effect of the script: a console print, an awaited
delegated crawl against a URL, the blocking `input()` read, the invocation
of the scrape step by `main`, or the passing of a browser configuration to
`AsyncWebCrawler(config=...)`. -/
inductive Event where
  | printed (s : String)
  | awaitedCrawl (url : String)
  | readConsole
  | calledScrape (query location : String)
  | usedConfig (c : BrowserConfig)
deriving DecidableEq

/-- Outcome of one delegated call to the external engine: either it
returns a crawl result carrying an optional `extracted_content` string, or
it raises an exception with a message. -/
inductive CrawlOutcome where
  | ok (extracted_content : Option String)
  | exn (msg : String)
deriving DecidableEq

/-- Embeds `scrape_linkedin_jobs` (lines 27-131) as a function of the
decoder `loads` (the Python standard library `json.loads`, not code of
this repository), the two string arguments, and the delegated call's
outcome.  Lines 29-110 only build the extraction schema and run
configuration handed to the external engine and are not observable in any
claim.  The branches:

  * the delegated call raises: caught by the `except Exception` handler of
    lines 129-131, printing the message and returning `[]`;
  * `extracted_content` is `None`: `json.loads(None)` raises `TypeError`
    (not `JSONDecodeError`), which the outer handler catches, printing the
    message and returning `[]`;
  * the content decodes: the decoded value is returned as-is (line 124);
  * the content fails to decode: the `except json.JSONDecodeError` handler
    of lines 125-127 prints and returns `[]`.

Totality of this function (its result type has no exception component)
is the model of the fact that no exception propagates to the caller. -/
def scrape_linkedin_jobs (loads : String → Except DecodeErr Py)
    (search_query location : String) (outcome : CrawlOutcome) : List Event × Py :=
  let url := searchUrl search_query location
  let ev0 := [Event.usedConfig browser_config, Event.awaitedCrawl url]
  match outcome with
  | CrawlOutcome.exn msg =>
      (ev0 ++ [Event.printed ("Error occurred: " ++ msg)], Py.pList [])
  | CrawlOutcome.ok none =>
      (ev0 ++ [Event.printed
        ("Error occurred: the JSON object must be str, bytes or bytearray, not NoneType")],
       Py.pList [])
  | CrawlOutcome.ok (some content) =>
      match loads content with
      | Except.ok jobs => (ev0, jobs)
      | Except.error _ =>
          (ev0 ++ [Event.printed "No jobs found or error parsing results"], Py.pList [])

/-- Embeds `login_to_linkedin` (lines 133-192).  The login run
configuration of lines 140-172 is only handed to the external engine.  The
crawl result bound on line 180 is never inspected: on a non-raising call
the function prints its status lines, blocks on `input()` (line 187) and
returns `True`; on a raising call the `except Exception` handler of lines
190-192 prints the message and returns `False`. -/
def login_to_linkedin (outcome : CrawlOutcome) : List Event × Bool :=
  let ev0 := [Event.printed "\nStarting LinkedIn Login Process",
    Event.printed "===============================",
    Event.printed "1. Opening browser...",
    Event.usedConfig browser_config,
    Event.printed "2. Navigating to LinkedIn...",
    Event.awaitedCrawl "https://www.linkedin.com"]
  match outcome with
  | CrawlOutcome.exn msg =>
      (ev0 ++ [Event.printed ("Error during login process: " ++ msg)], false)
  | CrawlOutcome.ok _ =>
      (ev0 ++ [Event.printed "3. Browser navigation complete",
        Event.printed "4. Please log in to LinkedIn in the opened browser",
        Event.printed "5. After logging in, the script will save your session",
        Event.readConsole], true)

/-- C2: a raising delegated call is caught at both call sites:
`login_to_linkedin` returns `False` and `scrape_linkedin_jobs` returns
`[]`.  Both embedded functions are total with no exception component in
their result, which is the model of the exception not propagating. -/
theorem delegated_exception_caught (loads : String → Except DecodeErr Py)
    (q l msg : String) :
    (login_to_linkedin (CrawlOutcome.exn msg)).2 = false ∧
    (scrape_linkedin_jobs loads q l (CrawlOutcome.exn msg)).2 = Py.pList [] :=
  ⟨rfl, rfl⟩

/-- C3: when the extracted content fails to decode as JSON,
`scrape_linkedin_jobs` returns `[]` rather than raising. -/
theorem scrape_empty_on_decode_failure (loads : String → Except DecodeErr Py)
    (q l content : String) (e : DecodeErr) (h : loads content = Except.error e) :
    (scrape_linkedin_jobs loads q l (CrawlOutcome.ok (some content))).2 = Py.pList [] := by
  simp [scrape_linkedin_jobs, h]

/-- Witness for `scrape_empty_on_decode_failure`: a decoder that rejects
the content "not json", as `json.loads` does. -/
theorem scrape_empty_on_decode_failure_witness :
    (fun (_ : String) => (Except.error ⟨"Expecting value"⟩ : Except DecodeErr Py)) "not json"
        = Except.error ⟨"Expecting value"⟩ ∧
    (scrape_linkedin_jobs (fun _ => Except.error ⟨"Expecting value"⟩) "python developer"
        "United States" (CrawlOutcome.ok (some "not json"))).2 = Py.pList [] :=
  ⟨rfl, scrape_empty_on_decode_failure _ "python developer" "United States"
    "not json" ⟨"Expecting value"⟩ rfl⟩

/-- C7: whenever the delegated navigation completes without raising,
`login_to_linkedin` blocks on the console read and returns `True`,
whatever the crawl result carries. -/
theorem login_reads_console_and_succeeds (c : Option String) :
    (login_to_linkedin (CrawlOutcome.ok c)).2 = true ∧
    Event.readConsole ∈ (login_to_linkedin (CrawlOutcome.ok c)).1 :=
  ⟨rfl, by simp [login_to_linkedin]⟩

/-- Python truthiness (`if not jobs:`) for the values `json.loads` can
produce. -/
def pyTruthy : Py → Bool
  | Py.pNone => false
  | Py.pBool b => b
  | Py.pInt n => !(n == 0)
  | Py.pStr s => !(s == "")
  | Py.pList xs => !xs.isEmpty
  | Py.pDict kvs => !kvs.isEmpty

/-- Python `len(...)` on the values `json.loads` can produce: sized for
strings, arrays and objects, a `TypeError` otherwise. -/
def pyLen : Py → Except PyErr Nat
  | Py.pStr s => Except.ok s.length
  | Py.pList xs => Except.ok xs.length
  | Py.pDict kvs => Except.ok kvs.length
  | _ => Except.error (PyErr.typeError "object has no len")

/-- Python iteration (`for job in jobs:`): arrays yield their elements,
objects their keys, strings their characters; other values raise
`TypeError`. -/
def pyIterElems : Py → Except PyErr (List Py)
  | Py.pList xs => Except.ok xs
  | Py.pDict kvs => Except.ok (kvs.map (fun kv => Py.pStr kv.1))
  | Py.pStr s => Except.ok (s.data.map (fun c => Py.pStr (String.singleton c)))
  | _ => Except.error (PyErr.typeError "object is not iterable")

/-- Python subscript `v[key]` with a string key: association lookup on an
object, raising `KeyError` when the key is absent and `TypeError` when the
value is not an object. -/
def pySubscript (v : Py) (key : String) : Except PyErr Py :=
  match v with
  | Py.pDict kvs =>
      match kvs.lookup key with
      | some x => Except.ok x
      | none => Except.error (PyErr.keyError key)
  | _ => Except.error (PyErr.typeError "indices must be integers")

/-- Python `str(...)` as applied by f-string interpolation.  The claims
only ever print string fields; the container cases stand in for the `repr`
formatting Python would use, which no claim inspects. -/
def pyStr : Py → String
  | Py.pNone => "None"
  | Py.pBool b => if b then "True" else "False"
  | Py.pInt n => toString n
  | Py.pStr s => s
  | Py.pList _ => "[...]"
  | Py.pDict _ => "[dict]"

/-- The five labelled fields printed per job by lines 224-228, in source
order. -/
def jobPrintFields : List (String × String) :=
  [("Title", "title"), ("Company", "company"), ("Location", "location"),
   ("Posted", "posted_time"), ("Link", "link")]

/-- The per-field prints of lines 224-228: each f-string evaluates
`job[key]` and prints on success; the first failing lookup raises,
keeping the prints already made. -/
def printFields (job : Py) : List (String × String) → List Event × Option PyErr
  | [] => ([], none)
  | (label, key) :: rest =>
    match pySubscript job key with
    | Except.error e => ([], some e)
    | Except.ok v =>
        let r := printFields job rest
        (Event.printed (label ++ ": " ++ pyStr v) :: r.1, r.2)

/-- The loop body of lines 222-228 for one job: the separator line, then
the five field prints. -/
def printJob (job : Py) : List Event × Option PyErr :=
  let r := printFields job jobPrintFields
  (Event.printed "\n---" :: r.1, r.2)

/-- The `for job in jobs:` loop of lines 222-228; an exception aborts the
remaining iterations. -/
def printJobsLoop : List Py → List Event × Option PyErr
  | [] => ([], none)
  | j :: js =>
    match (printJob j).2 with
    | some e => ((printJob j).1, some e)
    | none => ((printJob j).1 ++ (printJobsLoop js).1, (printJobsLoop js).2)

/-- Embeds lines 203-228 of `main`: everything after a successful login.
The scrape call is wrapped in `try/except` (lines 207-211), but the
embedded `scrape_linkedin_jobs` is total, so that handler is dead; the
empty-result report, the `len(...)` interpolation, and the print loop
follow lines 213-228.  A `TypeError` from `len` or from iteration and a
`KeyError` from a field lookup are uncaught and surface in the second
component. -/
def mainAfterLogin (loads : String → Except DecodeErr Py)
    (scrapeOutcome : CrawlOutcome) : List Event × Option PyErr :=
  let pre := [Event.printed "\nStarting Job Search",
    Event.printed "==================",
    Event.printed "1. Searching for Python developer jobs in United States...",
    Event.calledScrape "python developer" "United States"]
  let s := scrape_linkedin_jobs loads "python developer" "United States" scrapeOutcome
  let ev2 := pre ++ s.1
  if pyTruthy s.2 then
    match pyLen s.2 with
    | Except.error e => (ev2, some e)
    | Except.ok n =>
      match pyIterElems s.2 with
      | Except.error e =>
          (ev2 ++ [Event.printed ("\nFound " ++ toString n ++ " jobs:")], some e)
      | Except.ok items =>
          (ev2 ++ [Event.printed ("\nFound " ++ toString n ++ " jobs:")] ++
            (printJobsLoop items).1,
           (printJobsLoop items).2)
  else
    (ev2 ++ [Event.printed "\nNo jobs were found. This could be due to:",
      Event.printed "1. Not logged in to LinkedIn (please run again and log in)",
      Event.printed "2. No matching jobs in the specified location",
      Event.printed "3. Network connectivity issues"], none)

/-- Embeds `main` (lines 194-228); named `script_main` because Lean
reserves the top-level name `main` for a process entry point.  It takes no
command-line arguments: its only inputs are the environment the script
cannot control, namely the two delegated-call outcomes and the
standard-library decoder.  The query and location passed to the scrape
step are the hard-coded literals of line 208. -/
def script_main (loads : String → Except DecodeErr Py)
    (loginOutcome scrapeOutcome : CrawlOutcome) : List Event × Option PyErr :=
  let hd := [Event.printed "\nLinkedIn Jobs Scraper", Event.printed "===================="]
  if (login_to_linkedin loginOutcome).2 then
    (hd ++ (login_to_linkedin loginOutcome).1 ++ (mainAfterLogin loads scrapeOutcome).1,
     (mainAfterLogin loads scrapeOutcome).2)
  else
    (hd ++ (login_to_linkedin loginOutcome).1 ++
      [Event.printed "Failed to complete login process"], none)

theorem printFields_events (job : Py) (fs : List (String × String)) (e : Event)
    (h : e ∈ (printFields job fs).1) : ∃ s, e = Event.printed s := by
  induction fs with
  | nil => simp [printFields] at h
  | cons f rest ih =>
    obtain ⟨label, key⟩ := f
    rcases hk : pySubscript job key with er | v
    · simp [printFields, hk] at h
    · simp only [printFields, hk, List.mem_cons] at h
      rcases h with h | h
      · exact ⟨label ++ ": " ++ pyStr v, h⟩
      · exact ih h

theorem printJob_events (job : Py) (e : Event)
    (h : e ∈ (printJob job).1) : ∃ s, e = Event.printed s := by
  simp only [printJob, List.mem_cons] at h
  rcases h with h | h
  · exact ⟨"\n---", h⟩
  · exact printFields_events job jobPrintFields e h

theorem printJobsLoop_events (js : List Py) (e : Event)
    (h : e ∈ (printJobsLoop js).1) : ∃ s, e = Event.printed s := by
  induction js with
  | nil => simp [printJobsLoop] at h
  | cons j rest ih =>
    rcases h2 : (printJob j).2 with _ | er
    · simp only [printJobsLoop, h2, List.mem_append] at h
      rcases h with h | h
      · exact printJob_events j e h
      · exact ih h
    · simp only [printJobsLoop, h2] at h
      exact printJob_events j e h

theorem login_events (o : CrawlOutcome) (e : Event)
    (h : e ∈ (login_to_linkedin o).1) :
    e = Event.usedConfig browser_config ∨
    e = Event.awaitedCrawl "https://www.linkedin.com" ∨
    e = Event.readConsole ∨ (∃ s, e = Event.printed s) := by
  cases o <;> simp [login_to_linkedin] at h <;> tauto

theorem scrape_events (loads : String → Except DecodeErr Py) (q l : String)
    (o : CrawlOutcome) (e : Event)
    (h : e ∈ (scrape_linkedin_jobs loads q l o).1) :
    e = Event.usedConfig browser_config ∨
    e = Event.awaitedCrawl (searchUrl q l) ∨ (∃ s, e = Event.printed s) := by
  rcases o with oc | msg
  · rcases oc with _ | content
    · simp [scrape_linkedin_jobs] at h
      tauto
    · rcases hc : loads content with v | er
      · simp [scrape_linkedin_jobs, hc] at h
        tauto
      · simp [scrape_linkedin_jobs, hc] at h
        tauto
  · simp [scrape_linkedin_jobs] at h
    tauto

theorem mainAfterLogin_events (loads : String → Except DecodeErr Py)
    (so : CrawlOutcome) (e : Event)
    (h : e ∈ (mainAfterLogin loads so).1) :
    e = Event.calledScrape "python developer" "United States" ∨
    e ∈ (scrape_linkedin_jobs loads "python developer" "United States" so).1 ∨
    (∃ s, e = Event.printed s) := by
  rcases hb : pyTruthy (scrape_linkedin_jobs loads "python developer" "United States" so).2 with _ | _
  · simp only [mainAfterLogin, hb, Bool.false_eq_true, if_false, List.mem_append,
      List.mem_cons, List.not_mem_nil, or_false] at h
    tauto
  · rcases hn : pyLen (scrape_linkedin_jobs loads "python developer" "United States" so).2
      with er | n
    · simp only [mainAfterLogin, hb, hn, if_true, List.mem_append, List.mem_cons,
        List.not_mem_nil, or_false] at h
      tauto
    · rcases hi : pyIterElems (scrape_linkedin_jobs loads "python developer" "United States" so).2
        with er | items
      · simp only [mainAfterLogin, hb, hn, hi, if_true, List.mem_append, List.mem_cons,
          List.not_mem_nil, or_false] at h
        tauto
      · simp only [mainAfterLogin, hb, hn, hi, if_true, List.mem_append, List.mem_cons,
          List.not_mem_nil, or_false] at h
        rcases h with ((h | h) | h) | h
        · tauto
        · tauto
        · tauto
        · exact Or.inr (Or.inr (printJobsLoop_events items e h))

theorem script_main_events (loads : String → Except DecodeErr Py)
    (lo so : CrawlOutcome) (e : Event)
    (h : e ∈ (script_main loads lo so).1) :
    e ∈ (login_to_linkedin lo).1 ∨ e ∈ (mainAfterLogin loads so).1 ∨
    (∃ s, e = Event.printed s) := by
  rcases hb : (login_to_linkedin lo).2 with _ | _ <;>
    simp only [script_main, hb, Bool.false_eq_true, if_false, if_true, List.mem_append,
      List.mem_cons, List.not_mem_nil, or_false] at h <;>
    tauto

/-- C4: if `login_to_linkedin` reports failure, `main` returns without
ever invoking the scrape step: no scrape invocation appears in its
trace. -/
theorem no_scrape_after_failed_login (loads : String → Except DecodeErr Py)
    (lo so : CrawlOutcome) (q l : String)
    (h : (login_to_linkedin lo).2 = false) :
    Event.calledScrape q l ∉ (script_main loads lo so).1 := by
  intro hmem
  simp only [script_main, h, Bool.false_eq_true, if_false, List.mem_append,
    List.mem_cons, List.not_mem_nil, or_false] at hmem
  rcases hmem with (hmem | hmem) | hmem
  · simp at hmem
  · rcases login_events lo _ hmem with h1 | h1 | h1 | ⟨s, h1⟩ <;> simp at h1
  · simp at hmem

/-- Witness for `no_scrape_after_failed_login`: a raising login run. -/
theorem no_scrape_after_failed_login_witness :
    (login_to_linkedin (CrawlOutcome.exn "boom")).2 = false ∧
    Event.calledScrape "python developer" "United States" ∉
      (script_main (fun _ => Except.error ⟨"Expecting value"⟩)
        (CrawlOutcome.exn "boom") (CrawlOutcome.ok none)).1 :=
  ⟨rfl, no_scrape_after_failed_login _ _ _ "python developer" "United States" rfl⟩

/-- C9: whenever `main` invokes the scrape step, the arguments are exactly
the hard-coded query "python developer" and location "United States";
`main` itself has no other input channel (the embedding takes no argument
vector, matching the script's argument-free entry point). -/
theorem scrape_invoked_with_hardcoded_args (loads : String → Except DecodeErr Py)
    (lo so : CrawlOutcome) (q l : String)
    (h : Event.calledScrape q l ∈ (script_main loads lo so).1) :
    q = "python developer" ∧ l = "United States" := by
  rcases script_main_events loads lo so _ h with h1 | h1 | ⟨s, h1⟩
  · rcases login_events lo _ h1 with h2 | h2 | h2 | ⟨s, h2⟩ <;> simp at h2
  · rcases mainAfterLogin_events loads so _ h1 with h2 | h2 | ⟨s, h2⟩
    · simp only [Event.calledScrape.injEq] at h2
      exact h2
    · rcases scrape_events loads _ _ so _ h2 with h3 | h3 | ⟨s, h3⟩ <;> simp at h3
    · simp at h2
  · simp at h1

/-- C8: the browser configuration is the module-level constant
`browser_config`; neither `login_to_linkedin` nor `scrape_linkedin_jobs`
(nor `main` around them) ever passes any other configuration value to the
engine, so every launch observes the same immutable configuration. -/
theorem browser_config_never_modified :
    (∀ o c, Event.usedConfig c ∈ (login_to_linkedin o).1 → c = browser_config) ∧
    (∀ loads q l o c, Event.usedConfig c ∈ (scrape_linkedin_jobs loads q l o).1 →
      c = browser_config) ∧
    (∀ loads lo so c, Event.usedConfig c ∈ (script_main loads lo so).1 →
      c = browser_config) := by
  have hlogin : ∀ o c, Event.usedConfig c ∈ (login_to_linkedin o).1 → c = browser_config := by
    intro o c h
    rcases login_events o _ h with h1 | h1 | h1 | ⟨s, h1⟩ <;> simp at h1
    exact h1
  have hscrape : ∀ loads q l o c,
      Event.usedConfig c ∈ (scrape_linkedin_jobs loads q l o).1 → c = browser_config := by
    intro loads q l o c h
    rcases scrape_events loads q l o _ h with h1 | h1 | ⟨s, h1⟩ <;> simp at h1
    exact h1
  refine ⟨hlogin, hscrape, ?_⟩
  intro loads lo so c h
  rcases script_main_events loads lo so _ h with h1 | h1 | ⟨s, h1⟩
  · exact hlogin lo c h1
  · rcases mainAfterLogin_events loads so _ h1 with h2 | h2 | ⟨s, h2⟩
    · simp at h2
    · exact hscrape loads _ _ so c h2
    · simp at h2
  · simp at h1

/-- Witness for `browser_config_never_modified`: in a run where login
raises, the engine is launched and the configuration it observes is the
module constant. -/
theorem browser_config_never_modified_witness :
    Event.usedConfig browser_config ∈
      (script_main (fun _ => Except.error ⟨"Expecting value"⟩)
        (CrawlOutcome.ok none) (CrawlOutcome.exn "net down")).1 ∧
    browser_config = browser_config :=
  ⟨by decide,
   browser_config_never_modified.2.2 (fun _ => Except.error ⟨"Expecting value"⟩)
     (CrawlOutcome.ok none) (CrawlOutcome.exn "net down") browser_config (by decide)⟩

/-- Witness for `scrape_invoked_with_hardcoded_args`: a run reaching the
scrape step does record the hard-coded invocation. -/
theorem scrape_invoked_with_hardcoded_args_witness :
    Event.calledScrape "python developer" "United States" ∈
      (script_main (fun _ => Except.error ⟨"Expecting value"⟩)
        (CrawlOutcome.ok none) (CrawlOutcome.exn "net down")).1 ∧
    ("python developer" : String) = "python developer" ∧
    ("United States" : String) = "United States" :=
  ⟨by decide,
   scrape_invoked_with_hardcoded_args (fun _ => Except.error ⟨"Expecting value"⟩)
     (CrawlOutcome.ok none) (CrawlOutcome.exn "net down")
     "python developer" "United States" (by decide)⟩

/-- Is a Python value a list?  (`json.loads` can equally return an object,
a string, a number, a boolean, or null.) -/
def isPyList : Py → Bool
  | Py.pList _ => true
  | _ => false

/-- C5 counterexample: line 124 returns whatever `json.loads` produced,
with no check that it is a list.  `json.loads` on the two-character
content `"\x7b\x7d"` (an empty JSON object) returns the empty dict, so
`scrape_linkedin_jobs` returns a dict, not a sequence; the decoder below
models exactly that documented `json.loads` behaviour on this input. -/
theorem scrape_returns_nonlist_counterexample :
    isPyList (scrape_linkedin_jobs
      (fun s => if s = "\x7b\x7d" then Except.ok (Py.pDict [])
        else Except.error ⟨"Expecting value"⟩)
      "python developer" "United States" (CrawlOutcome.ok (some "\x7b\x7d"))).2 = false := by
  rfl

/-- C5 as amended: `scrape_linkedin_jobs` returns either the decoded
extracted content as-is or the empty list; whenever the decoder only ever
produces lists (as the extraction strategy's array output guarantees in
practice), the result is always a list. -/
theorem scrape_returns_list (loads : String → Except DecodeErr Py)
    (q l : String) (o : CrawlOutcome)
    (h : ∀ s v, loads s = Except.ok v → isPyList v = true) :
    isPyList (scrape_linkedin_jobs loads q l o).2 = true := by
  rcases o with oc | msg
  · rcases oc with _ | content
    · rfl
    · rcases hc : loads content with er | v
      · simp [scrape_linkedin_jobs, hc, isPyList]
      · simp only [scrape_linkedin_jobs, hc]
        exact h content v hc
  · rfl

/-- Witness for `scrape_returns_list`: a decoder producing a JSON array,
as `json.loads "[]"` does. -/
theorem scrape_returns_list_witness :
    isPyList (scrape_linkedin_jobs
      (fun _ => Except.ok (Py.pList []))
      "python developer" "United States" (CrawlOutcome.ok (some "[]"))).2 = true :=
  scrape_returns_list (fun _ => Except.ok (Py.pList []))
    "python developer" "United States" (CrawlOutcome.ok (some "[]"))
    (fun s v hv => by injection hv with h; subst h; rfl)

/-- Does a record carry all five fields printed by lines 224-228? -/
def hasAllJobFields : Py → Bool
  | Py.pDict kvs =>
      (["title", "company", "location", "posted_time", "link"]).all
        (fun k => (kvs.lookup k).isSome)
  | _ => false

theorem printJob_no_error (job : Py) (h : hasAllJobFields job = true) :
    (printJob job).2 = none := by
  cases job with
  | pDict kvs =>
    simp only [hasAllJobFields, List.all_cons, List.all_nil, Bool.and_true,
      Bool.and_eq_true, Option.isSome_iff_exists] at h
    obtain ⟨⟨t, ht⟩, ⟨c2, hc2⟩, ⟨l2, hl2⟩, ⟨p2, hp2⟩, ⟨k2, hk2⟩⟩ := h
    simp [printJob, printFields, jobPrintFields, pySubscript, ht, hc2, hl2, hp2, hk2]
  | pNone => simp [hasAllJobFields] at h
  | pBool b => simp [hasAllJobFields] at h
  | pInt n => simp [hasAllJobFields] at h
  | pStr s => simp [hasAllJobFields] at h
  | pList xs => simp [hasAllJobFields] at h

theorem printJobsLoop_no_error (js : List Py)
    (h : ∀ j ∈ js, hasAllJobFields j = true) :
    (printJobsLoop js).2 = none := by
  induction js with
  | nil => rfl
  | cons j rest ih =>
    have hj : (printJob j).2 = none := printJob_no_error j (h j (by simp))
    simp only [printJobsLoop, hj]
    exact ih (fun x hx => h x (by simp [hx]))

/-- C6 counterexample: a scrape producing one record that lacks the
`title` field (the extraction schema's fields are independently optional,
so a selector miss omits the key).  Line 224's `job['title']` then raises
an uncaught `KeyError` that escapes `main` instead of the record being
printed: the content below is the JSON text `json.loads` would turn into
`[ {"company": "Acme"} ]`, and the run aborts with `KeyError: 'title'`. -/
theorem print_missing_field_counterexample :
    (script_main
      (fun s => if s = "[\x7b\"company\": \"Acme\"\x7d]"
        then Except.ok (Py.pList [Py.pDict [("company", Py.pStr "Acme")]])
        else Except.error ⟨"Expecting value"⟩)
      (CrawlOutcome.ok none)
      (CrawlOutcome.ok (some "[\x7b\"company\": \"Acme\"\x7d]"))).2 =
      some (PyErr.keyError "title") := by
  rfl

/-- C6 as amended: `main` prints every record without error in the fixed
six-line layout provided each record carries all five fields; a record
missing one of them makes the corresponding `job[...]` lookup raise an
uncaught `KeyError` (see the counterexample). -/
theorem main_prints_full_records_without_error :
    (∀ (loads : String → Except DecodeErr Py) (c : Option String)
      (content : String) (recs : List Py),
      loads content = Except.ok (Py.pList recs) → recs ≠ [] →
      (∀ r ∈ recs, hasAllJobFields r = true) →
      (script_main loads (CrawlOutcome.ok c) (CrawlOutcome.ok (some content))).2 = none) ∧
    (∀ (kvs : List (String × Py)) (t c2 l2 p2 k2 : Py),
      kvs.lookup "title" = some t → kvs.lookup "company" = some c2 →
      kvs.lookup "location" = some l2 → kvs.lookup "posted_time" = some p2 →
      kvs.lookup "link" = some k2 →
      (printJob (Py.pDict kvs)).1 =
        [Event.printed "\n---",
         Event.printed ("Title: " ++ pyStr t),
         Event.printed ("Company: " ++ pyStr c2),
         Event.printed ("Location: " ++ pyStr l2),
         Event.printed ("Posted: " ++ pyStr p2),
         Event.printed ("Link: " ++ pyStr k2)]) := by
  constructor
  · intro loads c content recs hload hne hall
    have hscrape : (scrape_linkedin_jobs loads "python developer" "United States"
        (CrawlOutcome.ok (some content))).2 = Py.pList recs := by
      simp [scrape_linkedin_jobs, hload]
    have hlogin : (login_to_linkedin (CrawlOutcome.ok c)).2 = true := rfl
    have htru : pyTruthy (Py.pList recs) = true := by
      cases recs with
      | nil => exact absurd rfl hne
      | cons r rs => simp [pyTruthy]
    have hloop : (printJobsLoop recs).2 = none := printJobsLoop_no_error recs hall
    simp [script_main, hlogin, mainAfterLogin, hscrape, htru, pyLen, pyIterElems, hloop]
  · intro kvs t c2 l2 p2 k2 ht hc2 hl2 hp2 hk2
    simp [printJob, printFields, jobPrintFields, pySubscript, ht, hc2, hl2, hp2, hk2]

/-- Witness for `main_prints_full_records_without_error`: one record with
all five fields, decoded from its JSON text, is printed without error. -/
theorem main_prints_full_records_without_error_witness :
    (script_main
      (fun s => if s =
          "[\x7b\"title\": \"T\", \"company\": \"C\", \"location\": \"L\", \"posted_time\": \"P\", \"link\": \"K\"\x7d]"
        then Except.ok (Py.pList [Py.pDict
          [("title", Py.pStr "T"), ("company", Py.pStr "C"), ("location", Py.pStr "L"),
           ("posted_time", Py.pStr "P"), ("link", Py.pStr "K")]])
        else Except.error ⟨"Expecting value"⟩)
      (CrawlOutcome.ok none)
      (CrawlOutcome.ok (some
        "[\x7b\"title\": \"T\", \"company\": \"C\", \"location\": \"L\", \"posted_time\": \"P\", \"link\": \"K\"\x7d]"))).2
      = none :=
  main_prints_full_records_without_error.1 _ none
    "[\x7b\"title\": \"T\", \"company\": \"C\", \"location\": \"L\", \"posted_time\": \"P\", \"link\": \"K\"\x7d]"
    [Py.pDict [("title", Py.pStr "T"), ("company", Py.pStr "C"), ("location", Py.pStr "L"),
      ("posted_time", Py.pStr "P"), ("link", Py.pStr "K")]]
    (by simp) (by simp) (by decide)
